import Mathlib

set_option maxHeartbeats 1000000

/-!
Verification development for the Couchbase access layer of cb_brpc
(src/brpc/couchbase.cpp, src/brpc/couchbase.h) and its pipeline engine
(specified in the design document and exercised by
test/brpc_couchbase_unittest.cpp).

The wrapper stores values through tao::json: a write parses the input
string (tao::json::from_string) and the remote store keeps the parsed
document, while a read re-serializes the stored document
(tao::json::to_string of content_as<tao::json::value>).  The JSON value
type, parser and serializer below model that external library on the
fragment the wrapper exchanges with it (null, booleans, integer numbers,
strings with the basic escapes, arrays, objects with std::map-ordered
keys, compact serialization without whitespace).
-/

/-- Model of a tao::json document value.  Object fields are kept sorted by
key, mirroring the std::map representation used by tao::json. -/
inductive Json where
  | null : Json
  | bool (b : Bool) : Json
  | num (n : Int) : Json
  | str (s : String) : Json
  | arr (elems : List Json) : Json
  | obj (fields : List (String × Json)) : Json

/-- JSON insignificant whitespace. -/
def isJsonWs (c : Char) : Bool :=
  c = ' ' || c = '\t' || c = '\n' || c = '\r'

/-- Drop leading JSON whitespace. -/
def skipWs : List Char → List Char
  | [] => []
  | c :: cs => if isJsonWs c then skipWs cs else c :: cs

/-- Decode one JSON string escape character. -/
def unescapeChar (c : Char) : Option Char :=
  if c = '"' then some '"'
  else if c = '\\' then some '\\'
  else if c = '/' then some '/'
  else if c = 'n' then some '\n'
  else if c = 't' then some '\t'
  else if c = 'r' then some '\r'
  else if c = 'b' then some (Char.ofNat 8)
  else if c = 'f' then some (Char.ofNat 12)
  else none

/-- Parse the body of a JSON string literal, after the opening quote.
Returns the decoded characters and the input remaining after the closing
quote. -/
def parseStringBody : List Char → Option (List Char × List Char)
  | [] => none
  | c :: cs =>
    if c = '"' then some ([], cs)
    else if c = '\\' then
      match cs with
      | [] => none
      | e :: rest =>
        match unescapeChar e with
        | none => none
        | some d =>
          match parseStringBody rest with
          | none => none
          | some (body, rem) => some (d :: body, rem)
    else
      match parseStringBody cs with
      | none => none
      | some (body, rem) => some (c :: body, rem)

/-- Split a leading run of decimal digits from the input. -/
def takeDigits : List Char → List Char × List Char
  | [] => ([], [])
  | c :: cs =>
    if c.isDigit then
      let (ds, rest) := takeDigits cs
      (c :: ds, rest)
    else ([], c :: cs)

/-- Numeric value of a digit run. -/
def digitsToNat (ds : List Char) : Nat :=
  ds.foldl (fun acc c => acc * 10 + (c.toNat - 48)) 0

/-- Lexicographic character-list comparison, mirroring the byte-wise
std::string less-than used by the std::map of object fields. -/
def charsLt : List Char → List Char → Bool
  | [], [] => false
  | [], _ :: _ => true
  | _ :: _, [] => false
  | a :: as, b :: bs =>
    if a.toNat < b.toNat then true
    else if b.toNat < a.toNat then false
    else charsLt as bs

/-- Byte-wise string less-than. -/
def keyLt (a b : String) : Bool := charsLt a.data b.data

/-- Insert an object field keeping the list sorted by key; on a duplicate
key the earlier field (the one being inserted, which occurred first in the
input text) wins, mirroring std::map emplace. -/
def insertField (k : String) (v : Json) :
    List (String × Json) → List (String × Json)
  | [] => [(k, v)]
  | (k1, v1) :: rest =>
    if keyLt k k1 then (k, v) :: (k1, v1) :: rest
    else if k = k1 then (k, v) :: rest
    else (k1, v1) :: insertField k v rest

/-- Opening brace character. -/
def obrace : Char := Char.ofNat 123

/-- Closing brace character. -/
def cbrace : Char := Char.ofNat 125

/-- Parsing mode of the defunctionalized recursive-descent parser: a single
value, the element list of an array after the opening bracket, or the field
list of an object after the opening brace. -/
inductive PMode where
  | value
  | elems
  | fields

/-- Output of one parsing step, matching the mode. -/
inductive POut where
  | val (j : Json)
  | elems (js : List Json)
  | fields (fs : List (String × Json))

/-- Fueled recursive-descent JSON parser, modelling tao::json::from_string
on the fragment used by the wrapper.  Structural recursion on the fuel
keeps every run kernel-evaluable. -/
def parseF : Nat → PMode → List Char → Option (POut × List Char)
  | 0, _, _ => none
  | fuel + 1, PMode.value, cs =>
    match skipWs cs with
    | [] => none
    | c :: rest =>
      if c = 'n' then
        match rest with
        | 'u' :: 'l' :: 'l' :: rem => some (POut.val Json.null, rem)
        | _ => none
      else if c = 't' then
        match rest with
        | 'r' :: 'u' :: 'e' :: rem => some (POut.val (Json.bool true), rem)
        | _ => none
      else if c = 'f' then
        match rest with
        | 'a' :: 'l' :: 's' :: 'e' :: rem => some (POut.val (Json.bool false), rem)
        | _ => none
      else if c = '"' then
        match parseStringBody rest with
        | none => none
        | some (body, rem) => some (POut.val (Json.str (String.mk body)), rem)
      else if c = '-' then
        match rest with
        | [] => none
        | d :: _ =>
          if d.isDigit then
            let (ds, rem) := takeDigits rest
            some (POut.val (Json.num (-(digitsToNat ds : Int))), rem)
          else none
      else if c.isDigit then
        let (ds, rem) := takeDigits (c :: rest)
        some (POut.val (Json.num (digitsToNat ds)), rem)
      else if c = '[' then
        match skipWs rest with
        | ']' :: rem => some (POut.val (Json.arr []), rem)
        | _ =>
          match parseF fuel PMode.elems rest with
          | some (POut.elems js, rem) => some (POut.val (Json.arr js), rem)
          | _ => none
      else if c = obrace then
        match skipWs rest with
        | [] => none
        | b :: rem =>
          if b = cbrace then some (POut.val (Json.obj []), rem)
          else
            match parseF fuel PMode.fields rest with
            | some (POut.fields fs, rem2) => some (POut.val (Json.obj fs), rem2)
            | _ => none
      else none
  | fuel + 1, PMode.elems, cs =>
    match parseF fuel PMode.value cs with
    | some (POut.val v, rem) =>
      (match skipWs rem with
       | ',' :: rem2 =>
         match parseF fuel PMode.elems rem2 with
         | some (POut.elems vs, rem3) => some (POut.elems (v :: vs), rem3)
         | _ => none
       | ']' :: rem2 => some (POut.elems [v], rem2)
       | _ => none)
    | _ => none
  | fuel + 1, PMode.fields, cs =>
    match skipWs cs with
    | [] => none
    | q :: rest =>
      if q = '"' then
        match parseStringBody rest with
        | none => none
        | some (keyChars, rem) =>
          match skipWs rem with
          | ':' :: rem2 =>
            (match parseF fuel PMode.value rem2 with
             | some (POut.val v, rem3) =>
               (match skipWs rem3 with
                | [] => none
                | b :: rem4 =>
                  if b = ',' then
                    match parseF fuel PMode.fields rem4 with
                    | some (POut.fields fs, rem5) =>
                      some (POut.fields (insertField (String.mk keyChars) v fs), rem5)
                    | _ => none
                  else if b = cbrace then
                    some (POut.fields (insertField (String.mk keyChars) v []), rem4)
                  else none)
             | _ => none)
          | _ => none
      else none

/-- tao::json::from_string: parse a complete document, requiring that only
whitespace remains; a malformed document yields none (in the C++ library a
thrown parse exception). -/
def parseJson (s : String) : Option Json :=
  match parseF (s.length + 1) PMode.value s.data with
  | none => none
  | some (POut.val v, rem) =>
    (match skipWs rem with
     | [] => some v
     | _ => none)
  | some _ => none

/-- Escape one character for JSON string output. -/
def escapeChar (c : Char) : List Char :=
  if c = '"' then ['\\', '"']
  else if c = '\\' then ['\\', '\\']
  else if c = '\n' then ['\\', 'n']
  else if c = '\t' then ['\\', 't']
  else if c = '\r' then ['\\', 'r']
  else if c = Char.ofNat 8 then ['\\', 'b']
  else if c = Char.ofNat 12 then ['\\', 'f']
  else [c]

/-- A JSON string literal with quotes and escapes. -/
def quoteChars (s : String) : List Char :=
  '"' :: s.data.foldr (fun c acc => escapeChar c ++ acc) ['"']

mutual

/-- Compact serializer, modelling tao::json::to_string: no whitespace,
object fields in stored (sorted) order. -/
def jsonChars : Json → List Char
  | Json.null => ['n', 'u', 'l', 'l']
  | Json.bool true => ['t', 'r', 'u', 'e']
  | Json.bool false => ['f', 'a', 'l', 's', 'e']
  | Json.num n => (toString n).data
  | Json.str s => quoteChars s
  | Json.arr elems => '[' :: elemsChars elems ++ [']']
  | Json.obj fields => obrace :: fieldsChars fields ++ [cbrace]

/-- Serialize array elements, comma separated. -/
def elemsChars : List Json → List Char
  | [] => []
  | [v] => jsonChars v
  | v :: vs => jsonChars v ++ ',' :: elemsChars vs

/-- Serialize object fields, comma separated. -/
def fieldsChars : List (String × Json) → List Char
  | [] => []
  | [(k, v)] => quoteChars k ++ ':' :: jsonChars v
  | (k, v) :: fs => quoteChars k ++ ':' :: jsonChars v ++ ',' :: fieldsChars fs

end

/-- tao::json::to_string of a document value. -/
def jsonToString (j : Json) : String := String.mk (jsonChars j)


/-!
Driver model.  The Couchbase C++ SDK is an external collaborator of the
wrapper (design document section 6): the wrapper reaches it through the
chain cluster.bucket(b).scope(s).collection(c) followed by one of
get/insert/upsert/remove.  The remote store is a finite map from document
identifiers to stored JSON documents.  The SDK reports failures as error
values (document_not_found, document_exists, invalid_argument for an empty
document id, which the SDK rejects client side) and can also surface
exceptions; both channels are modelled below.  Every call the wrapper makes
to the driver is recorded in a trace, so that claims about which driver
calls an operation performs are statable.
-/

/-- Identifier of a document: the (bucket, scope, collection) target
resolved by the wrapper plus the document key. -/
structure DocId where
  bucket : String
  scope : String
  collection : String
  key : String
deriving DecidableEq

/-- Contents of the remote store, an external collaborator state. -/
abbrev Store := List (DocId × Json)

/-- Driver-level error kinds relevant to the wrapper. -/
inductive KvErr where
  | documentNotFound
  | documentExists
  | invalidArgument
deriving DecidableEq

/-- Driver-reported error message text (modelled external collaborator). -/
def kvMessage : KvErr → String
  | KvErr.documentNotFound => "document_not_found"
  | KvErr.documentExists => "document_exists"
  | KvErr.invalidArgument => "invalid_argument"

/-- Response of a driver get call: a stored document, an error value, or a
raised exception. -/
inductive GetResp where
  | ok (v : Json)
  | err (e : KvErr)
  | exn (m : String)

/-- Response of a driver insert/upsert/remove call. -/
inductive MutResp where
  | ok
  | err (e : KvErr)
  | exn (m : String)
deriving DecidableEq

/-- Look a document up in the store. -/
def storeLookup (st : Store) (id : DocId) : Option Json :=
  match st with
  | [] => none
  | (i, v) :: rest => if i = id then some v else storeLookup rest id

/-- Driver get: the SDK rejects an empty document id with
invalid_argument; otherwise the store decides hit or miss. -/
def storeGet (st : Store) (id : DocId) : GetResp :=
  if id.key = "" then GetResp.err KvErr.invalidArgument
  else
    match storeLookup st id with
    | some v => GetResp.ok v
    | none => GetResp.err KvErr.documentNotFound

/-- Driver insert: fails with document_exists when the key is present. -/
def storeInsert (st : Store) (id : DocId) (v : Json) : MutResp × Store :=
  if id.key = "" then (MutResp.err KvErr.invalidArgument, st)
  else
    match storeLookup st id with
    | some _ => (MutResp.err KvErr.documentExists, st)
    | none => (MutResp.ok, (id, v) :: st)

/-- Remove every entry of a document id from the store. -/
def storeErase (st : Store) (id : DocId) : Store :=
  st.filter (fun p => p.1 != id)

/-- Driver upsert: unconditional create-or-replace. -/
def storeUpsert (st : Store) (id : DocId) (v : Json) : MutResp × Store :=
  if id.key = "" then (MutResp.err KvErr.invalidArgument, st)
  else (MutResp.ok, (id, v) :: storeErase st id)

/-- Driver remove: fails with document_not_found when the key is absent. -/
def storeRemove (st : Store) (id : DocId) : MutResp × Store :=
  if id.key = "" then (MutResp.err KvErr.invalidArgument, st)
  else
    match storeLookup st id with
    | some _ => (MutResp.ok, storeErase st id)
    | none => (MutResp.err KvErr.documentNotFound, st)

/-- One call the wrapper makes into the driver: the resolution chain
bucket(b).scope(s).collection(c), or a document operation on the resolved
target. -/
inductive DriverCall where
  | resolve (bucket scope collection : String)
  | get (id : DocId)
  | insert (id : DocId)
  | upsert (id : DocId)
  | remove (id : DocId)
deriving DecidableEq

/-!
Connection lifecycle of CouchbaseObject (src/brpc/couchbase.cpp).  The
class holds g_cluster (an optional connected cluster session) and the flag
g_initialized.  The outcome of couchbase::cluster::connect depends on the
network and credentials and is passed in explicitly.
-/

/-- A connected cluster session, identified by the arguments it was
established with. -/
structure Session where
  conn : String
  user : String
  pass : String
deriving DecidableEq

/-- The wrapper state: fields g_cluster and g_initialized of
CouchbaseObject. -/
structure CouchbaseObject where
  g_cluster : Option Session := none
  g_initialized : Bool := false
deriving DecidableEq

/-- Outcome of couchbase::cluster::connect: success, a reported connect
error, or a thrown exception. -/
inductive ConnectOutcome where
  | ok
  | connectErr (m : String)
  | exn (m : String)
deriving DecidableEq

/-- CouchbaseObject::InitCouchbase: on success installs the new session
and sets g_initialized; on a reported connect error or a caught exception
it returns false and leaves every field as it was. -/
def InitCouchbase (obj : CouchbaseObject) (outcome : ConnectOutcome)
    (connection_string username password : String) : Bool × CouchbaseObject :=
  match outcome with
  | ConnectOutcome.ok =>
    (true, { g_cluster := some ⟨connection_string, username, password⟩,
             g_initialized := true })
  | ConnectOutcome.connectErr _ => (false, obj)
  | ConnectOutcome.exn _ => (false, obj)

/-- CouchbaseObject::CloseCouchbase: resets the session when initialized,
otherwise a no-op. -/
def CloseCouchbase (obj : CouchbaseObject) : CouchbaseObject :=
  if obj.g_initialized then { g_cluster := none, g_initialized := false }
  else obj

/-!
Operation bodies.  Each CouchbaseObject operation wraps its driver
interaction in a try block; the bodies below are the code inside the try,
in an exception monad where Except.error is a raised C++ exception.  The
quote characters that the source places around the key inside messages are
omitted here.
-/

/-- Body of the try block of CouchbaseObject::CouchbaseGet: on a driver
error value return the failure pair, on a hit re-serialize the content;
a driver exception propagates. -/
def getTryBody (key : String) (resp : GetResp) : Except String (Bool × String) :=
  match resp with
  | GetResp.exn m => Except.error m
  | GetResp.err e => Except.ok (false, "Get failed for key " ++ key ++ ": " ++ kvMessage e)
  | GetResp.ok v => Except.ok (true, jsonToString v)

/-- Body of the try block of CouchbaseObject::CouchbaseAdd: parsing the
value (tao::json::from_string) throws on malformed input, then the insert
either succeeds, reports an error value, or throws. -/
def addTryBody (parsed : Option Json) (resp : MutResp) : Except String Bool :=
  match parsed with
  | none => Except.error "tao json parse error"
  | some _ =>
    match resp with
    | MutResp.exn m => Except.error m
    | MutResp.err _ => Except.ok false
    | MutResp.ok => Except.ok true

/-- Body of the try block of CouchbaseObject::CouchbaseUpsert; same
structure as the add body. -/
def upsertTryBody (parsed : Option Json) (resp : MutResp) : Except String Bool :=
  match parsed with
  | none => Except.error "tao json parse error"
  | some _ =>
    match resp with
    | MutResp.exn m => Except.error m
    | MutResp.err _ => Except.ok false
    | MutResp.ok => Except.ok true

/-- Body of the try block of CouchbaseObject::CouchbaseRemove. -/
def removeTryBody (resp : MutResp) : Except String Bool :=
  match resp with
  | MutResp.exn m => Except.error m
  | MutResp.err _ => Except.ok false
  | MutResp.ok => Except.ok true

/-- The catch clause surrounding an operation body: a raised exception is
converted to the handler result, a normal result passes through. -/
def catchClause {α : Type} (body : Except String α) (handler : String → α) : α :=
  match body with
  | Except.ok r => r
  | Except.error m => handler m

/-- Combined system state: the wrapper object and the remote store it
talks to. -/
structure Sys where
  obj : CouchbaseObject
  store : Store

/-- CouchbaseObject::CouchbaseGet.  Returns the (success, string) pair of
the source — on success the string is the re-serialized document, on
failure the error message — together with the trace of driver calls made.
When g_initialized is false the function returns the failure pair at once
and the driver is never reached. -/
def CouchbaseGet (s : Sys) (key bucket_name scope collection : String) :
    (Bool × String) × List DriverCall :=
  if s.obj.g_initialized = false then
    ((false, "Couchbase not initialized"), [])
  else
    let id : DocId := ⟨bucket_name, scope, collection, key⟩
    (catchClause (getTryBody key (storeGet s.store id))
       (fun m => (false, "Exception during get operation: " ++ m)),
     [DriverCall.resolve bucket_name scope collection, DriverCall.get id])

/-- CouchbaseObject::CouchbaseAdd.  Parses the value first (a malformed
value throws inside the try block, before any driver call), then resolves
the target and performs the driver insert. -/
def CouchbaseAdd (s : Sys) (key value bucket_name scope collection : String) :
    Bool × Sys × List DriverCall :=
  if s.obj.g_initialized = false then (false, s, [])
  else
    match parseJson value with
    | none => (false, s, [])
    | some content =>
      let id : DocId := ⟨bucket_name, scope, collection, key⟩
      let rs := storeInsert s.store id content
      (catchClause (addTryBody (some content) rs.1) (fun _ => false),
       { s with store := rs.2 },
       [DriverCall.resolve bucket_name scope collection, DriverCall.insert id])

/-- CouchbaseObject::CouchbaseUpsert; same structure as the add, with an
unconditional driver upsert. -/
def CouchbaseUpsert (s : Sys) (key value bucket_name scope collection : String) :
    Bool × Sys × List DriverCall :=
  if s.obj.g_initialized = false then (false, s, [])
  else
    match parseJson value with
    | none => (false, s, [])
    | some content =>
      let id : DocId := ⟨bucket_name, scope, collection, key⟩
      let rs := storeUpsert s.store id content
      (catchClause (upsertTryBody (some content) rs.1) (fun _ => false),
       { s with store := rs.2 },
       [DriverCall.resolve bucket_name scope collection, DriverCall.upsert id])

/-- CouchbaseObject::CouchbaseRemove. -/
def CouchbaseRemove (s : Sys) (key bucket_name scope collection : String) :
    Bool × Sys × List DriverCall :=
  if s.obj.g_initialized = false then (false, s, [])
  else
    let id : DocId := ⟨bucket_name, scope, collection, key⟩
    let rs := storeRemove s.store id
    (catchClause (removeTryBody rs.1) (fun _ => false),
     { s with store := rs.2 },
     [DriverCall.resolve bucket_name scope collection, DriverCall.remove id])

/-!
Exception-channel view of the four operations.  Each function below is the
same operation with the catch clause left visible in the type: the result
is Except.error exactly when an exception would escape the operation to
the caller.  The driver response is universally quantified in the theorems
so that every driver behaviour, including any raised exception, is
covered.
-/

/-- CouchbaseGet with its exception channel exposed. -/
def couchbaseGetE (ini : Bool) (key : String) (resp : GetResp) :
    Except String (Bool × String) :=
  if ini = false then Except.ok (false, "Couchbase not initialized")
  else
    match getTryBody key resp with
    | Except.ok r => Except.ok r
    | Except.error m => Except.ok (false, "Exception during get operation: " ++ m)

/-- The classified result CouchbaseGet hands back for a given driver
response. -/
def couchbaseGetResult (ini : Bool) (key : String) (resp : GetResp) : Bool × String :=
  if ini = false then (false, "Couchbase not initialized")
  else catchClause (getTryBody key resp) (fun m => (false, "Exception during get operation: " ++ m))

/-- CouchbaseAdd with its exception channel exposed. -/
def couchbaseAddE (ini : Bool) (parsed : Option Json) (resp : MutResp) :
    Except String Bool :=
  if ini = false then Except.ok false
  else
    match addTryBody parsed resp with
    | Except.ok b => Except.ok b
    | Except.error _ => Except.ok false

/-- The classified result CouchbaseAdd hands back. -/
def couchbaseAddResult (ini : Bool) (parsed : Option Json) (resp : MutResp) : Bool :=
  if ini = false then false
  else catchClause (addTryBody parsed resp) (fun _ => false)

/-- CouchbaseUpsert with its exception channel exposed. -/
def couchbaseUpsertE (ini : Bool) (parsed : Option Json) (resp : MutResp) :
    Except String Bool :=
  if ini = false then Except.ok false
  else
    match upsertTryBody parsed resp with
    | Except.ok b => Except.ok b
    | Except.error _ => Except.ok false

/-- The classified result CouchbaseUpsert hands back. -/
def couchbaseUpsertResult (ini : Bool) (parsed : Option Json) (resp : MutResp) : Bool :=
  if ini = false then false
  else catchClause (upsertTryBody parsed resp) (fun _ => false)

/-- CouchbaseRemove with its exception channel exposed. -/
def couchbaseRemoveE (ini : Bool) (resp : MutResp) : Except String Bool :=
  if ini = false then Except.ok false
  else
    match removeTryBody resp with
    | Except.ok b => Except.ok b
    | Except.error _ => Except.ok false

/-- The classified result CouchbaseRemove hands back. -/
def couchbaseRemoveResult (ini : Bool) (resp : MutResp) : Bool :=
  if ini = false then false
  else catchClause (removeTryBody resp) (fun _ => false)

/-!
Pipeline engine.  Modelled from the spec: the pipeline implementation
(class CouchbaseOperations with beginPipeline, pipelineRequest,
executePipeline, clearPipeline, getPipelineSize, isPipelineActive) is not
part of the sources under src/ — only the unit tests reference it — so the
definitions below follow the design document, section 4.4: an
INACTIVE/ACTIVE state machine over an ordered queue of heterogeneous
requests, dispatching strictly in submission order to the operation
executor and producing one result per request.
-/

/-- Modelled from the spec: the operation kinds a pipeline request can
carry. -/
inductive OpKind where
  | ADD
  | UPSERT
  | GET
  | DELETE
deriving DecidableEq

/-- Modelled from the spec: one queued pipeline request with its own
(bucket, scope, collection) target. -/
structure OperationRequest where
  kind : OpKind
  key : String
  value : String
  bucket : String
  scope : String
  collection : String
deriving DecidableEq

/-- Modelled from the spec: the pipeline state, created empty and
inactive. -/
structure PipelineState where
  active : Bool := false
  queue : List OperationRequest := []
deriving DecidableEq

/-- Modelled from the spec: beginPipeline resets to ACTIVE with an empty
queue from either state and returns true. -/
def beginPipeline (_p : PipelineState) : Bool × PipelineState :=
  (true, { active := true, queue := [] })

/-- Modelled from the spec: pipelineRequest appends to the queue tail and
returns true while ACTIVE; while INACTIVE it returns false and discards
the request. -/
def pipelineRequest (p : PipelineState) (r : OperationRequest) :
    Bool × PipelineState :=
  if p.active then (true, { active := true, queue := p.queue ++ [r] })
  else (false, p)

/-- Modelled from the spec: clearPipeline discards the queue and
deactivates. -/
def clearPipeline (_p : PipelineState) : Bool × PipelineState :=
  (true, { active := false, queue := [] })

/-- Modelled from the spec: current queue length. -/
def getPipelineSize (p : PipelineState) : Nat := p.queue.length

/-- Modelled from the spec: whether the pipeline is ACTIVE. -/
def isPipelineActive (p : PipelineState) : Bool := p.active

/-- Modelled from the spec: dispatch one request to the corresponding
executor method (ADD to Add, UPSERT to Upsert, GET to Get, DELETE to
Remove) against its own target, producing one (success, value) result. -/
def execRequest (s : Sys) (r : OperationRequest) : (Bool × String) × Sys :=
  match r.kind with
  | OpKind.GET => ((CouchbaseGet s r.key r.bucket r.scope r.collection).1, s)
  | OpKind.ADD =>
    let out := CouchbaseAdd s r.key r.value r.bucket r.scope r.collection
    ((out.1, ""), out.2.1)
  | OpKind.UPSERT =>
    let out := CouchbaseUpsert s r.key r.value r.bucket r.scope r.collection
    ((out.1, ""), out.2.1)
  | OpKind.DELETE =>
    let out := CouchbaseRemove s r.key r.bucket r.scope r.collection
    ((out.1, ""), out.2.1)

/-- Modelled from the spec: execute queued requests sequentially in
submission order, threading the store state, collecting one result per
request. -/
def execAll (s : Sys) : List OperationRequest → List (Bool × String) × Sys
  | [] => ([], s)
  | r :: rs =>
    let out := execRequest s r
    let outs := execAll out.2 rs
    (out.1 :: outs.1, outs.2)

/-- Modelled from the spec: executePipeline drains the queue in order and
resets the engine to INACTIVE with an empty queue. -/
def executePipeline (s : Sys) (p : PipelineState) :
    List (Bool × String) × Sys × PipelineState :=
  if p.active then
    let outs := execAll s p.queue
    (outs.1, outs.2, { active := false, queue := [] })
  else ([], s, p)

/-- Fold a sequence of pipelineRequest calls, recording whether every call
was accepted. -/
def enqueueAll (p : PipelineState) : List OperationRequest → Bool × PipelineState
  | [] => (true, p)
  | r :: rs =>
    let out := pipelineRequest p r
    let outs := enqueueAll out.2 rs
    (out.1 && outs.1, outs.2)

/-- An established session used by the concrete instances below. -/
def session0 : Session := ⟨"couchbase://localhost", "Administrator", "password"⟩

/-- An initialized wrapper over an empty store. -/
def sysInit : Sys := ⟨⟨some session0, true⟩, []⟩

/-- An uninitialized wrapper over an empty store. -/
def sysUninit : Sys := ⟨⟨none, false⟩, []⟩

example : parseJson "\x7b\"a\": 1\x7d" = some (Json.obj [("a", Json.num 1)]) := rfl

example : (parseJson "\x7b\"a\": 1\x7d").map jsonToString = some "\x7b\"a\":1\x7d" := rfl

example : parseJson "[1, -2, \"x\", true, null]" =
    some (Json.arr [Json.num 1, Json.num (-2), Json.str "x", Json.bool true, Json.null]) := rfl

example : parseJson "\x7b\"b\":2,\"a\":1\x7d" =
    some (Json.obj [("a", Json.num 1), ("b", Json.num 2)]) := rfl

example : parseJson " \x7b \"a\" : 1 , \"b\" : 2 \x7d " =
    some (Json.obj [("a", Json.num 1), ("b", Json.num 2)]) := rfl

example : parseJson "\x7b\"a\":1" = none := rfl

example : parseJson "" = none := rfl

/-- C2: every operation attempted while g_initialized is false (no
successful InitCouchbase yet, or after CloseCouchbase, which always leaves
g_initialized false) returns a failed result immediately, changes nothing,
and performs no driver call at all. -/
theorem C2_uninitialized_fails_without_driver_call (s : Sys)
    (h : s.obj.g_initialized = false)
    (key value bucket scope collection : String) (obj2 : CouchbaseObject) :
    CouchbaseGet s key bucket scope collection =
      ((false, "Couchbase not initialized"), []) ∧
    CouchbaseAdd s key value bucket scope collection = (false, s, []) ∧
    CouchbaseUpsert s key value bucket scope collection = (false, s, []) ∧
    CouchbaseRemove s key bucket scope collection = (false, s, []) ∧
    (CloseCouchbase obj2).g_initialized = false := by
  refine ⟨?_, ?_, ?_, ?_, ?_⟩
  · simp [CouchbaseGet, h]
  · simp [CouchbaseAdd, h]
  · simp [CouchbaseUpsert, h]
  · simp [CouchbaseRemove, h]
  · cases hb : obj2.g_initialized <;> simp [CloseCouchbase, hb]

/-- Witness for C2 at a concrete uninitialized wrapper. -/
theorem C2_uninitialized_fails_without_driver_call_witness :
    sysUninit.obj.g_initialized = false ∧
    CouchbaseAdd sysUninit "k" "1" "testing" "_default" "_default" =
      (false, sysUninit, []) :=
  ⟨rfl, (C2_uninitialized_fails_without_driver_call sysUninit rfl "k" "1"
      "testing" "_default" "_default" ⟨none, false⟩).2.1⟩

/-- C5: for every driver behaviour, including any raised exception, each
of the four operations returns its classified result and never lets the
exception escape: the exception-channel view of each operation is always
Except.ok, and a driver exception yields the classified failure. -/
theorem C5_no_exception_escapes (ini : Bool) (key m : String) (gresp : GetResp)
    (parsed : Option Json) (mresp : MutResp) :
    couchbaseGetE ini key gresp = Except.ok (couchbaseGetResult ini key gresp) ∧
    couchbaseAddE ini parsed mresp = Except.ok (couchbaseAddResult ini parsed mresp) ∧
    couchbaseUpsertE ini parsed mresp = Except.ok (couchbaseUpsertResult ini parsed mresp) ∧
    couchbaseRemoveE ini mresp = Except.ok (couchbaseRemoveResult ini mresp) ∧
    couchbaseGetResult true key (GetResp.exn m) =
      (false, "Exception during get operation: " ++ m) ∧
    couchbaseAddResult true parsed (MutResp.exn m) = false ∧
    couchbaseUpsertResult true parsed (MutResp.exn m) = false ∧
    couchbaseRemoveResult true (MutResp.exn m) = false := by
  cases ini <;> cases gresp <;> cases mresp <;> cases parsed <;>
    simp [couchbaseGetE, couchbaseGetResult, couchbaseAddE, couchbaseAddResult,
      couchbaseUpsertE, couchbaseUpsertResult, couchbaseRemoveE, couchbaseRemoveResult,
      getTryBody, addTryBody, upsertTryBody, removeTryBody, catchClause]

/-- C8: a failed InitCouchbase (reported connect error or caught
exception) returns false and leaves the wrapper state exactly as it was,
so a retry starts from the same state and an already-initialized wrapper
stays initialized. -/
theorem C8_init_failure_leaves_state_unchanged (obj : CouchbaseObject)
    (outcome : ConnectOutcome) (h : outcome ≠ ConnectOutcome.ok)
    (conn user pass : String) :
    InitCouchbase obj outcome conn user pass = (false, obj) := by
  cases outcome with
  | ok => exact absurd rfl h
  | connectErr m => rfl
  | exn m => rfl

/-- Witness for C8: a failed re-init on an initialized wrapper. -/
theorem C8_init_failure_leaves_state_unchanged_witness :
    (ConnectOutcome.connectErr "authentication_failure" ≠ ConnectOutcome.ok) ∧
    InitCouchbase ⟨some session0, true⟩
        (ConnectOutcome.connectErr "authentication_failure")
        "couchbase://other" "user" "pw" = (false, ⟨some session0, true⟩) :=
  ⟨by decide, C8_init_failure_leaves_state_unchanged ⟨some session0, true⟩
      (ConnectOutcome.connectErr "authentication_failure") (by decide)
      "couchbase://other" "user" "pw"⟩

/-- C6 counterexample: CouchbaseGet with an empty key on an initialized
wrapper does perform driver calls — the resolution chain and the get —
contradicting the claim that no call to the driver happens. -/
theorem C6_empty_key_counterexample :
    (CouchbaseGet sysInit "" "testing" "_default" "_default").2 =
      [DriverCall.resolve "testing" "_default" "_default",
       DriverCall.get ⟨"testing", "_default", "_default", ""⟩] ∧
    (CouchbaseGet sysInit "" "testing" "_default" "_default").2 ≠ [] := by
  decide

/-- C6 amended: CouchbaseGet with an empty key returns a failed result,
but only after issuing the resolution and get calls to the driver; the
invalid-argument rejection comes from the driver, not from a local
fail-fast check (the source has no empty-key validation). -/
theorem C6_empty_key_get_fails_via_driver (s : Sys)
    (h : s.obj.g_initialized = true) (bucket scope collection : String) :
    CouchbaseGet s "" bucket scope collection =
      ((false, "Get failed for key " ++ "" ++ ": " ++ kvMessage KvErr.invalidArgument),
       [DriverCall.resolve bucket scope collection,
        DriverCall.get ⟨bucket, scope, collection, ""⟩]) := by
  simp [CouchbaseGet, h, storeGet, getTryBody, catchClause]

/-- Witness for the amended C6 at a concrete wrapper. -/
theorem C6_empty_key_get_fails_via_driver_witness :
    sysInit.obj.g_initialized = true ∧
    CouchbaseGet sysInit "" "testing" "_default" "_default" =
      ((false, "Get failed for key " ++ "" ++ ": " ++ kvMessage KvErr.invalidArgument),
       [DriverCall.resolve "testing" "_default" "_default",
        DriverCall.get ⟨"testing", "_default", "_default", ""⟩]) :=
  ⟨rfl, C6_empty_key_get_fails_via_driver sysInit rfl "testing" "_default" "_default"⟩

/-- C7 counterexample: a get of an absent key returns success false, but
the string slot of the result is the error message, not an empty value
string: the source returns one pair whose second component doubles as
value and error message. -/
theorem C7_absent_key_counterexample :
    (CouchbaseGet sysInit "nonexistent-key" "testing" "_default" "_default").1 =
      (false, "Get failed for key nonexistent-key: document_not_found") ∧
    (CouchbaseGet sysInit "nonexistent-key" "testing" "_default" "_default").1.2 ≠ "" := by
  decide

/-- C7 amended: for an absent, non-empty key on an initialized wrapper,
CouchbaseGet returns success false with the not-found error message in the
string slot; the driver error kind is document_not_found, and no separate
empty value field exists in the source result type. -/
theorem C7_get_absent_returns_not_found (s : Sys)
    (key bucket scope collection : String)
    (h : s.obj.g_initialized = true) (hk : ¬ key = "")
    (habs : storeLookup s.store ⟨bucket, scope, collection, key⟩ = none) :
    (CouchbaseGet s key bucket scope collection).1 =
      (false, "Get failed for key " ++ key ++ ": " ++ kvMessage KvErr.documentNotFound) := by
  simp [CouchbaseGet, h, storeGet, hk, habs, getTryBody, catchClause]

/-- Witness for the amended C7 on an empty store. -/
theorem C7_get_absent_returns_not_found_witness :
    sysInit.obj.g_initialized = true ∧
    ¬ ("nonexistent-key" : String) = "" ∧
    storeLookup sysInit.store ⟨"testing", "_default", "_default", "nonexistent-key"⟩ = none ∧
    (CouchbaseGet sysInit "nonexistent-key" "testing" "_default" "_default").1 =
      (false, "Get failed for key " ++ "nonexistent-key" ++ ": " ++
        kvMessage KvErr.documentNotFound) :=
  ⟨rfl, by decide, rfl,
   C7_get_absent_returns_not_found sysInit "nonexistent-key" "testing" "_default"
     "_default" rfl (by decide) rfl⟩

/-- C9 counterexample: two successive operations on the same
(bucket, scope, collection) triple each issue their own resolution call to
the driver — two resolve calls in total — contradicting the claim that
after the first resolution the cached handle is reused with no new
resolution call; the source has no handle cache at all. -/
theorem C9_no_cache_counterexample :
    ((CouchbaseGet sysInit "k" "testing" "_default" "_default").2 ++
     (CouchbaseGet sysInit "k" "testing" "_default" "_default").2).count
        (DriverCall.resolve "testing" "_default" "_default") = 2 := by
  decide

/-- C9 amended: no collection-handle cache exists; every operation on an
initialized wrapper issues a fresh bucket/scope/collection resolution to
the driver on every call — the driver trace of each operation begins with
the resolve of its own triple. -/
theorem C9_resolution_on_every_call (s : Sys)
    (key value bucket scope collection : String) (j : Json)
    (h : s.obj.g_initialized = true) (hv : parseJson value = some j) :
    (CouchbaseGet s key bucket scope collection).2.head? =
      some (DriverCall.resolve bucket scope collection) ∧
    (CouchbaseAdd s key value bucket scope collection).2.2.head? =
      some (DriverCall.resolve bucket scope collection) ∧
    (CouchbaseUpsert s key value bucket scope collection).2.2.head? =
      some (DriverCall.resolve bucket scope collection) ∧
    (CouchbaseRemove s key bucket scope collection).2.2.head? =
      some (DriverCall.resolve bucket scope collection) := by
  refine ⟨?_, ?_, ?_, ?_⟩ <;>
    simp [CouchbaseGet, CouchbaseAdd, CouchbaseUpsert, CouchbaseRemove, h, hv]

/-- Witness for the amended C9 at concrete inputs. -/
theorem C9_resolution_on_every_call_witness :
    sysInit.obj.g_initialized = true ∧
    parseJson "1" = some (Json.num 1) ∧
    (CouchbaseAdd sysInit "k" "1" "testing" "_default" "_default").2.2.head? =
      some (DriverCall.resolve "testing" "_default" "_default") :=
  ⟨rfl, rfl,
   (C9_resolution_on_every_call sysInit "k" "1" "testing" "_default" "_default"
     (Json.num 1) rfl rfl).2.1⟩

/-- After a successful add of a parseable value under an absent key, a get
of the same key succeeds and returns the canonical re-serialization of the
parsed document. -/
theorem add_then_get (s : Sys) (key value bucket scope collection : String)
    (j : Json) (h : s.obj.g_initialized = true) (hk : ¬ key = "")
    (hv : parseJson value = some j)
    (habs : storeLookup s.store ⟨bucket, scope, collection, key⟩ = none) :
    (CouchbaseAdd s key value bucket scope collection).1 = true ∧
    (CouchbaseGet (CouchbaseAdd s key value bucket scope collection).2.1
        key bucket scope collection).1 = (true, jsonToString j) := by
  constructor
  · simp [CouchbaseAdd, h, hv, storeInsert, hk, habs, addTryBody, catchClause]
  · simp [CouchbaseAdd, CouchbaseGet, h, hv, storeInsert, hk, habs, storeGet,
      storeLookup, getTryBody, addTryBody, catchClause]

/-- C3 counterexample: the write-read round trip is not byte-identical.
Adding the value with interior whitespace succeeds, and the following get
succeeds, but it returns the compact re-serialization of the parsed JSON,
not the original byte string. -/
theorem C3_round_trip_counterexample :
    (CouchbaseAdd sysInit "k" "\x7b\"a\": 1\x7d" "testing" "_default" "_default").1 = true ∧
    (CouchbaseGet (CouchbaseAdd sysInit "k" "\x7b\"a\": 1\x7d" "testing" "_default"
        "_default").2.1 "k" "testing" "_default" "_default").1 =
      (true, "\x7b\"a\":1\x7d") ∧
    ¬ (CouchbaseGet (CouchbaseAdd sysInit "k" "\x7b\"a\": 1\x7d" "testing" "_default"
        "_default").2.1 "k" "testing" "_default" "_default").1 =
      (true, "\x7b\"a\": 1\x7d") := by
  decide

/-- C3 amended: on an initialized wrapper with the key absent, a
successful add of value v followed by a get of the same key returns
success true with the canonical re-serialization of the JSON parsed from
v; the result is byte-identical to v exactly when v is already in
canonical serialized form. -/
theorem C3_add_get_round_trip (s : Sys) (key value bucket scope collection : String)
    (j : Json) (h : s.obj.g_initialized = true) (hk : ¬ key = "")
    (hv : parseJson value = some j)
    (habs : storeLookup s.store ⟨bucket, scope, collection, key⟩ = none) :
    (CouchbaseAdd s key value bucket scope collection).1 = true ∧
    (CouchbaseGet (CouchbaseAdd s key value bucket scope collection).2.1
        key bucket scope collection).1 = (true, jsonToString j) ∧
    (value = jsonToString j →
      (CouchbaseGet (CouchbaseAdd s key value bucket scope collection).2.1
        key bucket scope collection).1 = (true, value)) := by
  obtain ⟨h1, h2⟩ := add_then_get s key value bucket scope collection j h hk hv habs
  exact ⟨h1, h2, fun hc => by rw [h2, hc]⟩

/-- Witness for the amended C3 with a value already in canonical form. -/
theorem C3_add_get_round_trip_witness :
    sysInit.obj.g_initialized = true ∧
    ¬ ("k" : String) = "" ∧
    parseJson "\x7b\"a\":1\x7d" = some (Json.obj [("a", Json.num 1)]) ∧
    storeLookup sysInit.store ⟨"testing", "_default", "_default", "k"⟩ = none ∧
    ((CouchbaseAdd sysInit "k" "\x7b\"a\":1\x7d" "testing" "_default" "_default").1 = true ∧
     (CouchbaseGet (CouchbaseAdd sysInit "k" "\x7b\"a\":1\x7d" "testing" "_default"
         "_default").2.1 "k" "testing" "_default" "_default").1 =
       (true, jsonToString (Json.obj [("a", Json.num 1)])) ∧
     ("\x7b\"a\":1\x7d" = jsonToString (Json.obj [("a", Json.num 1)]) →
       (CouchbaseGet (CouchbaseAdd sysInit "k" "\x7b\"a\":1\x7d" "testing" "_default"
           "_default").2.1 "k" "testing" "_default" "_default").1 =
         (true, "\x7b\"a\":1\x7d"))) :=
  ⟨rfl, by decide, rfl, rfl,
   C3_add_get_round_trip sysInit "k" "\x7b\"a\":1\x7d" "testing" "_default" "_default"
     (Json.obj [("a", Json.num 1)]) rfl (by decide) rfl rfl⟩

/-- C10: two value strings that parse to the same JSON document (for
example differing only in whitespace) are indistinguishable after the
write: the get after either add returns the same canonical
re-serialization of the parsed document. -/
theorem C10_canonical_reserialization (s : Sys)
    (key v1 v2 bucket scope collection : String) (j : Json)
    (h : s.obj.g_initialized = true) (hk : ¬ key = "")
    (h1 : parseJson v1 = some j) (h2 : parseJson v2 = some j)
    (habs : storeLookup s.store ⟨bucket, scope, collection, key⟩ = none) :
    (CouchbaseGet (CouchbaseAdd s key v1 bucket scope collection).2.1
        key bucket scope collection).1 = (true, jsonToString j) ∧
    (CouchbaseGet (CouchbaseAdd s key v2 bucket scope collection).2.1
        key bucket scope collection).1 = (true, jsonToString j) :=
  ⟨(add_then_get s key v1 bucket scope collection j h hk h1 habs).2,
   (add_then_get s key v2 bucket scope collection j h hk h2 habs).2⟩

/-- Witness for C10: the same object written with and without interior
whitespace reads back identically. -/
theorem C10_canonical_reserialization_witness :
    sysInit.obj.g_initialized = true ∧
    ¬ ("k" : String) = "" ∧
    parseJson "\x7b\"a\": 1\x7d" = some (Json.obj [("a", Json.num 1)]) ∧
    parseJson "\x7b\"a\":1\x7d" = some (Json.obj [("a", Json.num 1)]) ∧
    storeLookup sysInit.store ⟨"testing", "_default", "_default", "k"⟩ = none ∧
    ((CouchbaseGet (CouchbaseAdd sysInit "k" "\x7b\"a\": 1\x7d" "testing" "_default"
         "_default").2.1 "k" "testing" "_default" "_default").1 =
       (true, jsonToString (Json.obj [("a", Json.num 1)])) ∧
     (CouchbaseGet (CouchbaseAdd sysInit "k" "\x7b\"a\":1\x7d" "testing" "_default"
         "_default").2.1 "k" "testing" "_default" "_default").1 =
       (true, jsonToString (Json.obj [("a", Json.num 1)]))) :=
  ⟨rfl, by decide, rfl, rfl, rfl,
   C10_canonical_reserialization sysInit "k" "\x7b\"a\": 1\x7d" "\x7b\"a\":1\x7d"
     "testing" "_default" "_default" (Json.obj [("a", Json.num 1)]) rfl (by decide)
     rfl rfl rfl⟩

/-- C4: on an initialized wrapper with a non-empty key absent from the
store and a parseable value, the first add succeeds; an immediate second
add of the same key fails, the driver reporting document_exists; and in
general an add reports success only when the key was not previously
present. -/
theorem C4_add_succeeds_only_when_absent (s : Sys)
    (key value bucket scope collection : String) (j : Json)
    (h : s.obj.g_initialized = true) (hk : ¬ key = "")
    (hv : parseJson value = some j)
    (habs : storeLookup s.store ⟨bucket, scope, collection, key⟩ = none) :
    (CouchbaseAdd s key value bucket scope collection).1 = true ∧
    (CouchbaseAdd (CouchbaseAdd s key value bucket scope collection).2.1
        key value bucket scope collection).1 = false ∧
    (storeInsert (CouchbaseAdd s key value bucket scope collection).2.1.store
        ⟨bucket, scope, collection, key⟩ j).1 = MutResp.err KvErr.documentExists ∧
    (∀ s2 : Sys, (CouchbaseAdd s2 key value bucket scope collection).1 = true →
      storeLookup s2.store ⟨bucket, scope, collection, key⟩ = none) := by
  refine ⟨?_, ?_, ?_, ?_⟩
  · simp [CouchbaseAdd, h, hv, storeInsert, hk, habs, addTryBody, catchClause]
  · simp [CouchbaseAdd, h, hv, storeInsert, hk, habs, storeLookup, addTryBody, catchClause]
  · simp [CouchbaseAdd, h, hv, storeInsert, hk, habs, storeLookup]
  · intro s2 hsucc
    by_cases h2 : s2.obj.g_initialized = false
    · simp [CouchbaseAdd, h2] at hsucc
    · rw [Bool.not_eq_false] at h2
      rcases hlook : storeLookup s2.store ⟨bucket, scope, collection, key⟩ with _ | v
      · rfl
      · exfalso
        simp [CouchbaseAdd, h2, hv, storeInsert, hk, hlook, addTryBody, catchClause] at hsucc

/-- Witness for C4 at concrete inputs. -/
theorem C4_add_succeeds_only_when_absent_witness :
    sysInit.obj.g_initialized = true ∧
    ¬ ("k" : String) = "" ∧
    parseJson "\x7b\"a\":1\x7d" = some (Json.obj [("a", Json.num 1)]) ∧
    storeLookup sysInit.store ⟨"testing", "_default", "_default", "k"⟩ = none ∧
    ((CouchbaseAdd sysInit "k" "\x7b\"a\":1\x7d" "testing" "_default" "_default").1 = true ∧
     (CouchbaseAdd (CouchbaseAdd sysInit "k" "\x7b\"a\":1\x7d" "testing" "_default"
         "_default").2.1 "k" "\x7b\"a\":1\x7d" "testing" "_default" "_default").1 = false) :=
  ⟨rfl, by decide, rfl, rfl,
   let out := C4_add_succeeds_only_when_absent sysInit "k" "\x7b\"a\":1\x7d" "testing"
     "_default" "_default" (Json.obj [("a", Json.num 1)]) rfl (by decide) rfl rfl
   ⟨out.1, out.2.1⟩⟩

/-- Enqueuing a list of requests into an active pipeline accepts every
request and appends them in order. -/
theorem enqueueAll_active (q rs : List OperationRequest) :
    enqueueAll ⟨true, q⟩ rs = (true, ⟨true, q ++ rs⟩) := by
  induction rs generalizing q with
  | nil => simp [enqueueAll]
  | cons r rs ih => simp [enqueueAll, pipelineRequest, ih]

/-- Sequential batch execution produces one result per request. -/
theorem execAll_length (s : Sys) (rs : List OperationRequest) :
    (execAll s rs).1.length = rs.length := by
  induction rs generalizing s with
  | nil => simp [execAll]
  | cons r rs ih => simp [execAll, ih]

/-- The i-th result of a batch is the result of dispatching the i-th
request in the state reached after the first i requests. -/
theorem execAll_getElem (s : Sys) (rs : List OperationRequest) (i : Nat) :
    (execAll s rs).1[i]? =
      (rs[i]?).map (fun r => (execRequest (execAll s (rs.take i)).2 r).1) := by
  induction rs generalizing s i with
  | nil => simp [execAll]
  | cons r rs ih =>
    cases i with
    | zero => simp [execAll]
    | succ n => simp [execAll, ih]

/-- C1: starting from beginPipeline, every pipelineRequest of a batch of N
requests is accepted while active, and executePipeline returns exactly N
results where the result at each index i is the result of executing the
request enqueued i-th (in the store state produced by the earlier
requests), for all N including the empty batch, and for every index i
(both sides of the index equation are none past the end). -/
theorem C1_pipeline_order (p : PipelineState) (s : Sys)
    (rs : List OperationRequest) (i : Nat) :
    (enqueueAll (beginPipeline p).2 rs).1 = true ∧
    (executePipeline s (enqueueAll (beginPipeline p).2 rs).2).1.length = rs.length ∧
    (executePipeline s (enqueueAll (beginPipeline p).2 rs).2).1[i]? =
      (rs[i]?).map (fun r => (execRequest (execAll s (rs.take i)).2 r).1) := by
  have hq : (beginPipeline p).2 = ⟨true, []⟩ := rfl
  rw [hq, enqueueAll_active]
  refine ⟨rfl, ?_, ?_⟩
  · simp [executePipeline, execAll_length]
  · simp [executePipeline, execAll_getElem]

/-- An add request used by the concrete pipeline batch. -/
def reqAdd : OperationRequest :=
  ⟨OpKind.ADD, "k1", "\x7b\"a\":1\x7d", "testing", "_default", "_default"⟩

/-- A get request used by the concrete pipeline batch. -/
def reqGet : OperationRequest :=
  ⟨OpKind.GET, "k1", "", "testing", "_default", "_default"⟩

/-- Witness for C1 on a concrete two-request batch. -/
theorem C1_pipeline_order_witness :
    (enqueueAll (beginPipeline ⟨false, []⟩).2 [reqAdd, reqGet]).1 = true ∧
    (executePipeline sysInit
       (enqueueAll (beginPipeline ⟨false, []⟩).2 [reqAdd, reqGet]).2).1.length =
      [reqAdd, reqGet].length ∧
    (executePipeline sysInit
       (enqueueAll (beginPipeline ⟨false, []⟩).2 [reqAdd, reqGet]).2).1[1]? =
      (([reqAdd, reqGet] : List OperationRequest)[1]?).map
        (fun r => (execRequest (execAll sysInit ([reqAdd, reqGet].take 1)).2 r).1) :=
  C1_pipeline_order ⟨false, []⟩ sysInit [reqAdd, reqGet] 1

example :
    (executePipeline sysInit
       (enqueueAll (beginPipeline ⟨false, []⟩).2 [reqAdd, reqGet]).2).1 =
      [(true, ""), (true, "\x7b\"a\":1\x7d")] := by
  decide

example :
    (executePipeline sysInit
       (enqueueAll (beginPipeline ⟨false, []⟩).2 [reqAdd, reqGet]).2).2.2 =
      ⟨false, []⟩ := by
  decide

example : clearPipeline ⟨true, [reqAdd, reqGet]⟩ = (true, ⟨false, []⟩) := rfl

example : getPipelineSize ⟨true, [reqAdd, reqGet]⟩ = 2 := rfl

example : isPipelineActive ⟨false, []⟩ = false := rfl

example : pipelineRequest ⟨false, []⟩ reqAdd = (false, ⟨false, []⟩) := rfl
